import Mathlib

/-!
# CoupJS server game engine — shallow embedding and verification

This file embeds the room game-state machine and action-resolution engine of
the CoupJS server (`server.js`) in Lean 4 and settles a list of claims about
it.  The embedding is a direct transcription of the JavaScript source:

* JS objects mutated in place become explicit state passing over `Room`;
  a mutation of a player found by `find` is modelled by `updateFirstById`,
  which rewrites exactly the first list entry with the matching id, as the
  aliased JS object would be.
* A JS code path that would throw a `TypeError` (member access on
  `null`/`undefined`) is modelled by the operation returning `none`; a path
  that returns a `{success, error}` object returns `some` of an
  `ActionResult` together with the post-state.
* `Array.prototype.sort(() => Math.random() - 0.5)` is modelled by an
  explicit `shuffle : List Card → List Card` parameter; theorems that need
  the fact that a shuffle is a permutation take it as a hypothesis, and
  concrete evaluations instantiate `shuffle := id`.
* `deck.pop()` takes the last element of the list, `deck.unshift`/( `push`)
  prepend/append, matching JS array semantics.
* Fields that never influence control flow or any claimed state
  (`gameStats` counters, log message text, display names, chat, the
  database sink) are omitted; the game log and elimination records are kept
  only as much as the claims need (`eliminationOrder` keeps the player ids,
  in order).
* JS timer handles (`setTimeout` ids stored in `room.responseTimeout` and
  `actionInProgress.responseTimeout`) are modelled as `Bool` flags — `true`
  iff a handle is stored — and the two timeout callbacks are separate
  operations (`actionTimeoutFire`, `blockTimeoutFire`).
-/

/-- The role cards.  `CARDS` is the base set (no Inquisitor),
`INQUISITOR_CARDS` substitutes Inquisitor for Ambassador. -/
inductive Card where
  | duke
  | assassin
  | captain
  | ambassador
  | inquisitor
  | contessa
deriving DecidableEq, Repr

/-- `CARDS` from the source: the five base roles. -/
def CARDS : List Card := [.duke, .assassin, .captain, .ambassador, .contessa]

/-- `INQUISITOR_CARDS` from the source. -/
def INQUISITOR_CARDS : List Card := [.duke, .assassin, .captain, .inquisitor, .contessa]

/-- One influence card instance: `{card, revealed}`. -/
structure Influence where
  card : Card
  revealed : Bool
deriving DecidableEq, Repr

/-- The eight action kinds of the `ACTIONS` table. -/
inductive ActionKind where
  | income
  | foreignAid
  | tax
  | assassinate
  | steal
  | exchange
  | examine
  | coup
deriving DecidableEq, Repr

/-- The static data of one `ACTIONS` entry that the engine logic reads:
`cost`, `blockable`, `blocker`, `challengeable`, `card`.  (`name` and the
`coins` display amount are never read by the resolution logic, which uses
literal amounts in `resolveAction`.) -/
structure ActionData where
  cost : Option Int := none
  blockable : Bool := false
  blocker : List Card := []
  challengeable : Bool := false
  card : Option Card := none
deriving DecidableEq, Repr

/-- The `ACTIONS` table from the source. -/
def ACTIONS : ActionKind → ActionData
  | .income => {}
  | .foreignAid => { blockable := true, blocker := [.duke] }
  | .tax => { challengeable := true, card := some .duke }
  | .assassinate =>
      { cost := some 3, blockable := true, blocker := [.contessa],
        challengeable := true, card := some .assassin }
  | .steal =>
      { blockable := true, blocker := [.captain, .ambassador, .inquisitor],
        challengeable := true, card := some .captain }
  | .exchange => { challengeable := true, card := some .ambassador }
  | .examine => { challengeable := true, card := some .inquisitor }
  | .coup => { cost := some 7 }

/-- A per-seat player record; JS `undefined`/`null` fields become `Option`
or a defaulted flag. -/
structure Player where
  id : Nat
  socketId : Nat
  coins : Int := 2
  influences : List Influence := []
  alive : Bool := true
  disconnected : Bool := false
  hasLeft : Bool := false
  mustRevealInfluence : Bool := false
  influencesToLose : Nat := 0
  influenceLossCausedBy : Option Nat := none
  mustChooseExchange : Bool := false
  mustChooseExamine : Bool := false
  mustShowCardToExaminer : Bool := false
  exchangeCards : Option (List Card) := none
  examineTargetId : Option Nat := none
  examinedBy : Option Nat := none
  examinedCard : Option Card := none
  examinedCardIndex : Option Nat := none
deriving DecidableEq, Repr

/-- A player intent response: `{type: 'pass' | 'challenge' | 'block', blockCard}`. -/
inductive Response where
  | pass
  | challenge
  | block (blockCard : Card)
deriving DecidableEq, Repr

/-- `response.type === 'block'`. -/
def isBlockResponse : Response → Bool
  | .block _ => true
  | _ => false

/-- The `phase` field of an action in progress: `'waiting'` or `'block'`. -/
inductive Phase where
  | waiting
  | block
deriving DecidableEq, Repr

/-- The transient action-in-progress record created by `performAction`. -/
structure ActionIP where
  action : ActionKind
  playerId : Nat
  targetId : Option Nat := none
  canChallenge : Bool := false
  canBlock : Bool := false
  blocker : List Card := []
  responses : List (Nat × Response) := []
  phase : Phase := .waiting
  totalResponders : Nat := 0
  respondedCount : Nat := 0
  blockableByTarget : Bool := false
  targetCanBlock : Option Nat := none
  blockerId : Option Nat := none
  blockCard : Option Card := none
  pausedForDisconnection : Bool := false
  responseTimeout : Bool := false
deriving DecidableEq, Repr

/-- The room lifecycle state. -/
inductive RoomState where
  | lobby
  | playing
  | ended
deriving DecidableEq, Repr

/-- The room aggregate (engine-relevant fields of `createRoom`). -/
structure Room where
  state : RoomState := .lobby
  deck : List Card := []
  players : List Player := []
  currentPlayerIndex : Nat := 0
  actionInProgress : Option ActionIP := none
  pendingResponses : List Nat := []
  useInquisitor : Bool := false
  responseTimeout : Bool := false
  eliminationOrder : List Nat := []
  winnerId : Option Nat := none
deriving DecidableEq, Repr

/-- The `{success, error?}` result every player-facing operation returns. -/
structure ActionResult where
  success : Bool
  error : Option String := none
deriving DecidableEq, Repr

/-- Shorthand for a failure result. -/
def fail (msg : String) : ActionResult := { success := false, error := some msg }

/-- Shorthand for `{success: true}`. -/
def ok : ActionResult := { success := true }

/-- `room.players.find(p => p.socketId === socketId)`. -/
def getPlayerBySocketId (room : Room) (socketId : Nat) : Option Player :=
  room.players.find? (fun p => p.socketId == socketId)

/-- `room.players.find(p => p.id === playerId)`. -/
def getPlayerById (room : Room) (playerId : Nat) : Option Player :=
  room.players.find? (fun p => p.id == playerId)

/-- Mutating the JS player object returned by `find`: rewrite the first
list entry whose id matches. -/
def updateFirstById (ps : List Player) (pid : Nat) (f : Player → Player) : List Player :=
  match ps with
  | [] => []
  | p :: rest => if p.id == pid then f p :: rest else p :: updateFirstById rest pid f

/-- `updateFirstById` lifted to a room. -/
def updatePlayer (room : Room) (pid : Nat) (f : Player → Player) : Room :=
  { room with players := updateFirstById room.players pid f }

/-- `new Set(list)`: deduplicate keeping the first occurrence. -/
def mkSet (l : List Nat) : List Nat :=
  l.foldl (fun acc x => if x ∈ acc then acc else acc ++ [x]) []

/-- `Set.delete`. -/
def setDelete (l : List Nat) (x : Nat) : List Nat := l.filter (fun y => y ≠ x)

/-- `list[i].f = v` on an array: rewrite position `i`. -/
def listModify (l : List α) (i : Nat) (f : α → α) : List α :=
  match l, i with
  | [], _ => []
  | a :: rest, 0 => f a :: rest
  | a :: rest, n + 1 => a :: listModify rest n f

/-- Whether a player holds an unrevealed copy of the (optional) claimed
role: `influences.some(inf => !inf.revealed && inf.card === claimed)`.
A missing claim (`undefined` in JS) matches nothing. -/
def hasUnrevealedCard (p : Player) (claimed : Option Card) : Bool :=
  p.influences.any (fun inf => !inf.revealed && some inf.card == claimed)

/-- `clearActionAndTimeout`: drop both timer handles and the pending action. -/
def clearActionAndTimeout (room : Room) : Room :=
  { room with responseTimeout := false, actionInProgress := none }

/-- `shuffleDeck`: three copies of each role of the chosen card set, then a
random sort. -/
def shuffleDeck (shuffle : List Card → List Card) (useInquisitor : Bool) : List Card :=
  shuffle ((if useInquisitor then INQUISITOR_CARDS else CARDS).flatMap
    (fun c => List.replicate 3 c))


/-! ## View projection (`getPublicGameState`) -/

/-- One entry of the projected `influences` array: either the full card or
the face-down `{revealed: false}` object (no `card` field → `none`). -/
structure InfluenceView where
  card : Option Card
  revealed : Bool
deriving DecidableEq, Repr

/-- The per-player entry of `getPublicGameState(room, socketId, isSpectator)`
(engine-relevant fields). -/
structure PlayerView where
  id : Nat
  coins : Int
  influenceCount : Nat
  disconnected : Bool
  hasLeft : Bool
  influences : List InfluenceView
  alive : Bool
  mustRevealInfluence : Bool
  influencesToLose : Nat
  mustChooseExchange : Bool
  mustChooseExamine : Bool
  mustShowCardToExaminer : Bool
  examineTargetId : Option Nat
  examinedCard : Option Card
  exchangeCards : Option (List Card)
  isMe : Bool
deriving DecidableEq, Repr

/-- The body of the `room.players.map` in `getPublicGameState`:
spectators see all cards, players only their own; other players' unrevealed
cards are replaced by `{revealed: false}`. -/
def playerView (p : Player) (socketId : Nat) (isSpectator : Bool) : PlayerView :=
  { id := p.id
    coins := p.coins
    influenceCount := p.influences.length
    disconnected := p.disconnected
    hasLeft := p.hasLeft
    influences :=
      if (p.socketId == socketId && !isSpectator) || isSpectator then
        p.influences.map (fun inf => { card := some inf.card, revealed := inf.revealed })
      else
        p.influences.map (fun inf =>
          if inf.revealed then { card := some inf.card, revealed := inf.revealed }
          else { card := none, revealed := false })
    alive := p.alive
    mustRevealInfluence := p.mustRevealInfluence
    influencesToLose := p.influencesToLose
    mustChooseExchange := p.mustChooseExchange
    mustChooseExamine := p.mustChooseExamine
    mustShowCardToExaminer := p.mustShowCardToExaminer
    examineTargetId := p.examineTargetId
    examinedCard := if p.socketId == socketId && !isSpectator then p.examinedCard else none
    exchangeCards := if p.socketId == socketId && !isSpectator then p.exchangeCards else none
    isMe := p.socketId == socketId && !isSpectator }

/-- The projected room snapshot sent to one socket (engine-relevant
fields).  The pending action is sent with its timer handle stripped
(modelled by forcing the timer flag off). -/
structure GameStateView where
  state : RoomState
  deckSize : Nat
  isSpectator : Bool
  players : List PlayerView
  currentPlayerIndex : Nat
  currentPlayerId : Option Nat
  actionInProgress : Option ActionIP
  myPlayerId : Option Nat
deriving DecidableEq, Repr

/-- `getPublicGameState(room, socketId, isSpectator)`. -/
def getPublicGameState (room : Room) (socketId : Nat) (isSpectator : Bool) : GameStateView :=
  { state := room.state
    deckSize := room.deck.length
    isSpectator := isSpectator
    players := room.players.map (fun p => playerView p socketId isSpectator)
    currentPlayerIndex := room.currentPlayerIndex
    currentPlayerId := (room.players[room.currentPlayerIndex]?).map (fun p => p.id)
    actionInProgress := room.actionInProgress.map (fun a => { a with responseTimeout := false })
    myPlayerId := (getPlayerBySocketId room socketId).map (fun p => p.id) }

/-! ## Turn control and elimination -/

/-- The `while (!room.players[next].alive && attempts < room.players.length)`
loop of `nextTurn`, with the remaining allowed attempts as fuel. -/
def seekAlive (players : List Player) (next : Nat) (fuel : Nat) : Nat :=
  match fuel with
  | 0 => next
  | fuel + 1 =>
    if (players[next]?).elim false (fun p => p.alive) then next
    else seekAlive players ((next + 1) % players.length) fuel

/-- `nextTurn`: a no-op while an exchange, reveal or show-card obligation is
outstanding; otherwise advances the turn index circularly to the next alive
seat (at most one full lap).  An empty player list would make the source
read `.alive` of `undefined`, modelled as `none`. -/
def nextTurn (room : Room) : Option Room :=
  if room.players.any (fun p => p.mustChooseExchange) then some room
  else if room.players.any (fun p => p.mustRevealInfluence) then some room
  else if room.players.any (fun p => p.mustShowCardToExaminer) then some room
  else
    match room.players.length with
    | 0 => none
    | n + 1 =>
      let next := seekAlive room.players ((room.currentPlayerIndex + 1) % (n + 1)) (n + 1)
      some { room with currentPlayerIndex := next }

/-- `checkWinCondition`: when exactly one player is alive, record the
winner (placement 1) and end the game. -/
def checkWinCondition (room : Room) : Room :=
  match room.players.filter (fun p => p.alive) with
  | [winner] =>
    { room with
        winnerId := some winner.id
        eliminationOrder := room.eliminationOrder ++ [winner.id]
        state := .ended }
  | _ => room

/-- `loseInfluence`: issue a reveal obligation (never synchronous loss). -/
def loseInfluence (room : Room) (playerId : Nat) (count : Nat)
    (causedByPlayerId : Option Nat) : Room :=
  match getPlayerById room playerId with
  | none => room
  | some player =>
    if player.influences.any (fun inf => !inf.revealed) then
      updatePlayer room playerId (fun p =>
        { p with
            influencesToLose := p.influencesToLose + count
            mustRevealInfluence := true
            influenceLossCausedBy := causedByPlayerId })
    else room

/-- The return-and-redraw block shared by `handleChallenge` (lines
854–860) and `challengeBlock` (lines 1086–1092): the defender's unrevealed
copy of the claimed card draws a fresh top card, and the claimed card is
shuffled back into the deck. -/
def returnAndRedraw (shuffle : List Card → List Card) (room : Room) (pid : Nat)
    (claimed : Option Card) : Room :=
  match getPlayerById room pid, claimed with
  | some holder, some c =>
    match holder.influences.findIdx? (fun inf => !inf.revealed && inf.card == c),
        room.deck.getLast? with
    | some i, some newCard =>
      let room := updatePlayer room pid (fun p =>
        { p with influences := listModify p.influences i (fun inf => { inf with card := newCard }) })
      { room with deck := shuffle (c :: room.deck.dropLast) }
    | _, _ => room
  | _, _ => room

/-! ## Action resolution -/

/-- `resolveAction`: the final effect-application step.  Costs (coup 7,
assassinate 3) are deducted here and only here; exchange and examine
suspend mid-flow by clearing the pending action and issuing a player-scoped
obligation instead of advancing the turn. -/
def resolveAction (room : Room) : Option Room :=
  match room.actionInProgress with
  | none => some room
  | some a =>
    let actionData := ACTIONS a.action
    match getPlayerById room a.playerId with
    | none => none
    | some _ =>
      -- Apply costs
      let room :=
        match actionData.cost with
        | some c => updatePlayer room a.playerId (fun p => { p with coins := p.coins - c })
        | none => room
      let target := a.targetId.bind (fun tid => getPlayerById room tid)
      -- Apply effects
      match a.action with
      | .income =>
        let room := updatePlayer room a.playerId (fun p => { p with coins := p.coins + 1 })
        nextTurn (clearActionAndTimeout room)
      | .foreignAid =>
        let room := updatePlayer room a.playerId (fun p => { p with coins := p.coins + 2 })
        nextTurn (clearActionAndTimeout room)
      | .tax =>
        let room := updatePlayer room a.playerId (fun p => { p with coins := p.coins + 3 })
        nextTurn (clearActionAndTimeout room)
      | .steal =>
        match target with
        | some t =>
          let stolen := min 2 t.coins
          let room := updatePlayer room t.id (fun p => { p with coins := p.coins - stolen })
          let room := updatePlayer room a.playerId (fun p => { p with coins := p.coins + stolen })
          nextTurn (clearActionAndTimeout room)
        | none => nextTurn (clearActionAndTimeout room)
      | .assassinate =>
        match target with
        | some t =>
          let room := loseInfluence room t.id 1 (some a.playerId)
          nextTurn (clearActionAndTimeout room)
        | none => nextTurn (clearActionAndTimeout room)
      | .exchange =>
        if room.useInquisitor then
          match room.deck.getLast? with
          | some c1 =>
            let room := { room with deck := room.deck.dropLast }
            let room := updatePlayer room a.playerId (fun p =>
              { p with exchangeCards := some [c1], mustChooseExchange := true })
            some { room with actionInProgress := none }
          | none => nextTurn (clearActionAndTimeout room)
        else
          match room.deck.getLast?, room.deck.dropLast.getLast? with
          | some c1, some c2 =>
            let room := { room with deck := room.deck.dropLast.dropLast }
            let room := updatePlayer room a.playerId (fun p =>
              { p with exchangeCards := some [c1, c2], mustChooseExchange := true })
            some { room with actionInProgress := none }
          | _, _ => nextTurn (clearActionAndTimeout room)
      | .examine =>
        match target with
        | some t =>
          if t.influences.any (fun inf => !inf.revealed) then
            let room := updatePlayer room a.playerId (fun p =>
              { p with examineTargetId := some t.id, mustChooseExamine := true })
            let room := updatePlayer room t.id (fun p =>
              { p with mustShowCardToExaminer := true, examinedBy := some a.playerId })
            some { room with actionInProgress := none }
          else nextTurn (clearActionAndTimeout room)
        | none => nextTurn (clearActionAndTimeout room)
      | .coup =>
        match target with
        | some t =>
          let room := loseInfluence room t.id 1 (some a.playerId)
          nextTurn (clearActionAndTimeout room)
        | none => nextTurn (clearActionAndTimeout room)

/-- `handleChallenge`: resolve a challenge of the pending action.  If the
actor holds the claimed card the challenger owes an influence, the claimed
card is returned and redrawn and the action proceeds; otherwise the actor
owes an influence and the action is cancelled. -/
def handleChallenge (shuffle : List Card → List Card) (room : Room)
    (challengerId : Nat) : Option Room :=
  match room.actionInProgress with
  | none => none
  | some a =>
    match getPlayerById room challengerId, getPlayerById room a.playerId with
    | some _, some actor =>
      let actionData := ACTIONS a.action
      -- Clear the action-level timer: the challenge resolves the action
      let room := { room with actionInProgress := some { a with responseTimeout := false } }
      if hasUnrevealedCard actor actionData.card then
        let room := loseInfluence room challengerId 1 (some a.playerId)
        let room := returnAndRedraw shuffle room a.playerId actionData.card
        resolveAction room
      else
        let room := loseInfluence room a.playerId 1 (some challengerId)
        nextTurn (clearActionAndTimeout room)
    | _, _ => none

/-- `handleBlock`: move to the block phase; everyone alive, connected and
distinct from the blocker may challenge the block.  With no eligible
challenger the block stands at once; with a disconnected potential
challenger the action pauses; otherwise the 12-unit block timer starts. -/
def handleBlock (room : Room) (blockerId : Nat) (blockCard : Card) : Option Room :=
  match room.actionInProgress with
  | none => none
  | some a =>
    match getPlayerById room blockerId with
    | none => none
    | some _ =>
      let a := { a with phase := Phase.block, blockerId := some blockerId,
                        blockCard := some blockCard }
      let eligibleChallengersList := room.players.filter
        (fun p => p.alive && p.id != blockerId && !p.disconnected)
      let a := { a with totalResponders := eligibleChallengersList.length, respondedCount := 0 }
      let room := { room with
        actionInProgress := some a
        pendingResponses := mkSet (eligibleChallengersList.map (fun p => p.id)) }
      if eligibleChallengersList.length == 0 then
        nextTurn (clearActionAndTimeout room)
      else
        if room.players.any (fun p => p.alive && p.id != blockerId && p.disconnected) then
          some { room with actionInProgress := some { a with pausedForDisconnection := true } }
        else
          some { room with
            actionInProgress := some { a with responseTimeout := true }
            responseTimeout := true }

/-- `respondToAction`: record one eligible responder's challenge / block /
pass, with the already-responded and eligibility guards, and resolve when
the pending-response set empties. -/
def respondToAction (shuffle : List Card → List Card) (room : Room) (socketId : Nat)
    (response : Response) : Option (ActionResult × Room) :=
  match getPlayerBySocketId room socketId, room.actionInProgress with
  | none, _ => some (fail "Invalid response", room)
  | some _, none => some (fail "Invalid response", room)
  | some player, some a =>
    if player.id ∉ room.pendingResponses then
      some (fail "Not eligible to respond", room)
    else if (a.responses.lookup player.id).isSome then
      some (fail "Already responded", room)
    else if a.phase == Phase.waiting && a.playerId == player.id then
      some (fail "Cannot respond to your own action", room)
    else if a.phase == Phase.block && a.blockerId == some player.id then
      some (fail "Cannot respond to your own block", room)
    else if isBlockResponse response && a.blockableByTarget
        && a.targetCanBlock != some player.id then
      some (fail "Only the target can block this action", room)
    else
      let pending := setDelete room.pendingResponses player.id
      let a := { a with
        responses := a.responses ++ [(player.id, response)]
        respondedCount := a.totalResponders - pending.length }
      let room := { room with actionInProgress := some a, pendingResponses := pending }
      match response with
      | .challenge => (handleChallenge shuffle room player.id).map (fun r => (ok, r))
      | .block blockCard => (handleBlock room player.id blockCard).map (fun r => (ok, r))
      | .pass =>
        if a.phase == Phase.block then
          if pending.length == 0 then
            if room.players.any (fun p =>
                p.alive && some p.id != a.blockerId && p.disconnected) then
              -- Still waiting for disconnected players - pause
              if !a.pausedForDisconnection then
                let a := { a with pausedForDisconnection := true, responseTimeout := false }
                some (ok, { room with actionInProgress := some a })
              else
                some (ok, room)
            else
              -- No disconnected players waiting - block succeeds
              (nextTurn (clearActionAndTimeout room)).map (fun r => (ok, r))
          else some (ok, room)
        else
          if pending.length == 0 then
            let targetPlayer := a.targetId.bind (fun tid => getPlayerById room tid)
            if (targetPlayer.map (fun t => t.disconnected)).getD false then
              -- Target is disconnected - pause and wait
              if !a.pausedForDisconnection then
                let a := { a with pausedForDisconnection := true, responseTimeout := false }
                some (ok, { room with actionInProgress := some a })
              else
                some (ok, room)
            else
              (resolveAction room).map (fun r => (ok, r))
          else some (ok, room)

/-- `challengeBlock`: challenge the pending block.  The source reads
`action.blockerId` before any null check, so a missing action record
throws (modelled `none`); an absent blocker or block card yields the typed
`'Invalid block challenge'` failure. -/
def challengeBlock (shuffle : List Card → List Card) (room : Room)
    (socketId : Nat) : Option (ActionResult × Room) :=
  match room.actionInProgress with
  | none => none
  | some a =>
    let challenger? := getPlayerBySocketId room socketId
    let blocker? := a.blockerId.bind (fun bid => getPlayerById room bid)
    if blocker?.isNone || a.blockCard.isNone then
      some (fail "Invalid block challenge", room)
    else
      match challenger?, blocker?, a.blockerId, a.blockCard with
      | none, _, _, _ => none
      | some challenger, some blocker, some blockerId, some blockCard =>
        if challenger.id == blockerId then
          some (fail "Cannot challenge your own block", room)
        else
          let room := { room with actionInProgress := some { a with responseTimeout := false } }
          if blocker.influences.any (fun inf => !inf.revealed && inf.card == blockCard) then
            let room := loseInfluence room challenger.id 1 (some blockerId)
            let room := returnAndRedraw shuffle room blockerId (some blockCard)
            (nextTurn (clearActionAndTimeout room)).map (fun r => (ok, r))
          else
            let room := loseInfluence room blockerId 1 (some challenger.id)
            (resolveAction room).map (fun r => (ok, r))
      | _, _, _, _ => none

/-- `performAction`: declare an action.  Validates turn ownership, mutual
exclusion, outstanding obligations, cost, the mandatory-coup rule and
target presence before creating the action-in-progress record and opening
the response window (resolving at once when no response is possible or
needed). -/
def performAction (room : Room) (socketId : Nat) (action : ActionKind)
    (targetId : Option Nat) : Option (ActionResult × Room) :=
  match getPlayerBySocketId room socketId with
  | none => some (fail "Player not found", room)
  | some player =>
    match room.players[room.currentPlayerIndex]? with
    | none => none
    | some cur =>
      if cur.socketId != socketId then some (fail "Not your turn", room)
      else if room.actionInProgress.isSome then some (fail "Action already in progress", room)
      else if room.players.any (fun p => p.mustRevealInfluence) then
        some (fail "Waiting for player to reveal influence", room)
      else if room.players.any (fun p => p.mustChooseExchange) then
        some (fail "Waiting for exchange to complete", room)
      else if room.players.any (fun p => p.mustShowCardToExaminer) then
        some (fail "Waiting for card to be shown", room)
      else if room.players.any (fun p => p.mustChooseExamine) then
        some (fail "Waiting for examination to complete", room)
      else
        let actionData := ACTIONS action
        if (actionData.cost.map (fun c => decide (player.coins < c))).getD false then
          some (fail "Not enough coins", room)
        else if player.coins ≥ 10 && action != ActionKind.coup then
          some (fail "Must coup with 10+ coins", room)
        else
          let targetPlayer := targetId.bind (fun tid => getPlayerById room tid)
          if (action == ActionKind.steal || action == ActionKind.assassinate
              || action == ActionKind.coup || action == ActionKind.examine)
              && targetPlayer.isNone then
            some (fail "Target required", room)
          else
            let blockers :=
              if actionData.blockable && room.useInquisitor then
                actionData.blocker.filter (fun c => c ≠ Card.ambassador)
              else actionData.blocker
            -- Clear any existing timer from a previous action
            let room := { room with responseTimeout := false }
            let a : ActionIP :=
              { action := action
                playerId := player.id
                targetId := targetId
                canChallenge := actionData.challengeable
                canBlock := actionData.blockable
                blocker := blockers
                responses := []
                phase := .waiting
                totalResponders := 0
                respondedCount := 0 }
            if actionData.challengeable || actionData.blockable then
              let eligibleResponders := room.players.filter
                (fun p => p.alive && p.id != player.id && !p.disconnected)
              let a :=
                if actionData.blockable && targetId.isSome then
                  { a with blockableByTarget := true, targetCanBlock := targetId }
                else a
              let a := { a with totalResponders := eligibleResponders.length,
                                respondedCount := 0 }
              let room := { room with
                actionInProgress := some a
                pendingResponses := mkSet (eligibleResponders.map (fun p => p.id)) }
              if eligibleResponders.length == 0 then
                (resolveAction room).map (fun r => (ok, r))
              else if (targetPlayer.map (fun t => t.disconnected)).getD false then
                let a := { a with pausedForDisconnection := true }
                some (ok, { room with actionInProgress := some a })
              else
                let a := { a with responseTimeout := true }
                some (ok, { room with actionInProgress := some a, responseTimeout := true })
            else
              let room := { room with actionInProgress := some a }
              (resolveAction room).map (fun r => (ok, r))

/-- The 12-unit response-timeout callback armed by `performAction`: if the
action is still in the waiting phase, behave as a unanimous pass. -/
def actionTimeoutFire (room : Room) : Option Room :=
  match room.actionInProgress with
  | some a => if a.phase == Phase.waiting then resolveAction room else some room
  | none => some room

/-- The 12-unit block-timeout callback armed by `handleBlock`: if still in
the block phase, the block stands and the action is cancelled. -/
def blockTimeoutFire (room : Room) : Option Room :=
  match room.actionInProgress with
  | some a =>
    if a.phase == Phase.block then nextTurn (clearActionAndTimeout room) else some room
  | none => some room

/-! ## Player-scoped obligation operations -/

/-- `completeExchange`: keep exactly `influences.length` of the pooled
current influences + drawn cards (chosen by index into that pool), return
the rest to the deck and reshuffle.  The index validation checks only the
range of each index.  The `getD` default below is unreachable: every index
was range-checked just above. -/
def completeExchange (shuffle : List Card → List Card) (room : Room) (playerId : Nat)
    (keepIndices : List Int) : Option (ActionResult × Room) :=
  match getPlayerById room playerId with
  | none => some (fail "Not in exchange mode", room)
  | some player =>
    if !player.mustChooseExchange then some (fail "Not in exchange mode", room)
    else
      match player.exchangeCards with
      | none => none
      | some exchangeCards =>
        let cardsToKeep := player.influences.length
        if keepIndices.length ≠ cardsToKeep then
          some (fail ("Must choose exactly " ++ toString cardsToKeep ++ " cards to keep"), room)
        else
          let allCards := player.influences
            ++ exchangeCards.map (fun c => { card := c, revealed := false })
          if keepIndices.any (fun idx => idx < 0 || (allCards.length : Int) ≤ idx) then
            some (fail "Invalid card indices", room)
          else
            let keptCards := keepIndices.map (fun idx =>
              (allCards[idx.toNat]?).getD { card := Card.duke, revealed := false })
            let returnedCards := (allCards.enum.filter
              (fun e => !keepIndices.contains (e.1 : Int))).map (fun e => e.2.card)
            let room := { room with deck := shuffle (room.deck ++ returnedCards) }
            let room := updatePlayer room playerId (fun p =>
              { p with influences := keptCards, exchangeCards := none,
                       mustChooseExchange := false })
            (nextTurn room).map (fun r => (ok, r))

/-- `showCardToExaminer`: the examined player names one unrevealed card;
its identity and index are stored on the examiner.  The source logs
`examiner.name` unguarded after the mutations, so a missing examiner
throws (`none`). -/
def showCardToExaminer (room : Room) (playerId : Nat) (cardIndex : Int) :
    Option (ActionResult × Room) :=
  match getPlayerById room playerId with
  | none => some (fail "Not required to show card", room)
  | some player =>
    if !player.mustShowCardToExaminer then some (fail "Not required to show card", room)
    else if cardIndex < 0 || (player.influences.length : Int) ≤ cardIndex then
      some (fail "Invalid card index", room)
    else
      match player.influences[cardIndex.toNat]? with
      | none => none
      | some influence =>
        if influence.revealed then some (fail "Cannot show revealed card", room)
        else
          let examiner? := player.examinedBy.bind (fun eid => getPlayerById room eid)
          let room :=
            match player.examinedBy, examiner? with
            | some eid, some _ =>
              updatePlayer room eid (fun p =>
                { p with examinedCard := some influence.card,
                         examinedCardIndex := some cardIndex.toNat })
            | _, _ => room
          let room := updatePlayer room playerId (fun p =>
            { p with mustShowCardToExaminer := false, examinedBy := none })
          match examiner? with
          | none => none
          | some _ => some (ok, room)

/-- `completeExamine`: the examiner optionally forces the shown card to be
exchanged for the top of the deck (the old card is pushed back and the
deck reshuffled), then the examine obligation clears and the turn
advances.  A JS `examinedCardIndex` of `null` and of `undefined` are both
modelled as `none`. -/
def completeExamine (shuffle : List Card → List Card) (room : Room) (playerId : Nat)
    (forceExchange : Bool) : Option (ActionResult × Room) :=
  match getPlayerById room playerId with
  | none => some (fail "Not in examine mode", room)
  | some player =>
    if !player.mustChooseExamine then some (fail "Not in examine mode", room)
    else
      match player.examineTargetId.bind (fun tid => getPlayerById room tid) with
      | none => some (fail "Target not found", room)
      | some target =>
        let room? :=
          if forceExchange && decide (0 < room.deck.length) && player.examinedCardIndex.isSome then
            match player.examinedCardIndex with
            | some cardIndex =>
              match target.influences[cardIndex]? with
              | none => none
              | some inf =>
                if !inf.revealed then
                  match room.deck.getLast? with
                  | some newCard =>
                    let oldCard := inf.card
                    let room := updatePlayer room target.id (fun p =>
                      let infs := listModify p.influences cardIndex
                        (fun i => { i with card := newCard })
                      { p with influences := infs })
                    some { room with deck := shuffle (room.deck.dropLast ++ [oldCard]) }
                  | none => some room
                else some room
            | none => some room
          else some room
        match room? with
        | none => none
        | some room =>
          let room := updatePlayer room playerId (fun p =>
            { p with examineTargetId := none, mustChooseExamine := false,
                     examinedCard := none, examinedCardIndex := none })
          (nextTurn room).map (fun r => (ok, r))

/-- `revealInfluence`: flip the named unrevealed card face-up, settle the
owed-influence counter, eliminate the player when no unrevealed card
remains (recording elimination order and checking the win condition), and
advance the turn once no reveal obligation is left anywhere. -/
def revealInfluence (room : Room) (playerId : Nat) (cardIndex : Int) :
    Option (ActionResult × Room) :=
  match getPlayerById room playerId with
  | none => some (fail "Not required to reveal influence", room)
  | some player =>
    if !player.mustRevealInfluence then some (fail "Not required to reveal influence", room)
    else if cardIndex < 0 || (player.influences.length : Int) ≤ cardIndex then
      some (fail "Invalid card index", room)
    else
      match player.influences[cardIndex.toNat]? with
      | none => none
      | some influence =>
        if influence.revealed then some (fail "Card already revealed", room)
        else
          let room := updatePlayer room playerId (fun p =>
            let infs := listModify p.influences cardIndex.toNat
              (fun inf => { inf with revealed := true })
            let owed := (if p.influencesToLose == 0 then 1 else p.influencesToLose) - 1
            { p with influences := infs, influencesToLose := owed })
          match getPlayerById room playerId with
          | none => none
          | some player =>
            if !(player.influences.any (fun inf => !inf.revealed)) then
              let room := updatePlayer room playerId (fun p =>
                { p with alive := false, mustRevealInfluence := false, influencesToLose := 0 })
              let room := { room with eliminationOrder := room.eliminationOrder ++ [playerId] }
              some (ok, checkWinCondition room)
            else if 0 < player.influencesToLose then some (ok, room)
            else
              let room := updatePlayer room playerId (fun p =>
                { p with mustRevealInfluence := false })
              if !(room.players.any (fun p => p.mustRevealInfluence)) then
                (nextTurn { room with actionInProgress := none }).map (fun r => (ok, r))
              else some (ok, room)

/-! ## Derived quantities and preservation lemmas -/

/-- Total number of physical cards in a room: deck plus every player's
influence slots plus cards held out in a pending exchange offer. -/
def cardTotal (room : Room) : Nat :=
  room.deck.length +
    (room.players.map (fun p => p.influences.length + (p.exchangeCards.getD []).length)).sum

/-- The coin balances of the seats, in seat order. -/
def coinsMap (room : Room) : List Int := room.players.map (fun p => p.coins)

/-- The coin balance of the player found by id (as `getPlayerById` finds
them). -/
def coinsOf (room : Room) (pid : Nat) : Option Int :=
  (getPlayerById room pid).map (fun p => p.coins)


/-! ## Concrete rooms used by the claim analyses -/

/-- A mid-game room in which player 0 holds a pending Ambassador exchange
offer: 9 cards in the deck, two players with 2 influences each and 2 drawn
cards in the offer — 15 cards in total. -/
def room_c2 : Room :=
  { state := .playing,
    deck := [.duke, .assassin, .captain, .ambassador, .contessa,
             .duke, .assassin, .captain, .ambassador],
    players :=
      [{ id := 0, socketId := 100, coins := 2,
         influences := [⟨.duke, false⟩, ⟨.assassin, false⟩],
         mustChooseExchange := true, exchangeCards := some [.captain, .captain] },
       { id := 1, socketId := 101, coins := 2,
         influences := [⟨.contessa, false⟩, ⟨.contessa, false⟩] }] }

/-- A mid-game room in which player 0 has a revealed Duke, an unrevealed
Assassin, and a pending exchange offer of Captain and Contessa. -/
def room_c3 : Room :=
  { state := .playing, deck := [.ambassador],
    players :=
      [{ id := 0, socketId := 100, coins := 2,
         influences := [⟨.duke, true⟩, ⟨.assassin, false⟩],
         mustChooseExchange := true, exchangeCards := some [.captain, .contessa] },
       { id := 1, socketId := 101, coins := 2,
         influences := [⟨.contessa, false⟩, ⟨.contessa, false⟩] }] }

def pC4a : Player := { id := 0, socketId := 100 }

def pC4b : Player := { id := 1, socketId := 101 }

/-- A room with a pending Tax action by player 0 (socket 100); player 1
(socket 101) is another seat. -/
def room_c4 : Room :=
  { state := .playing, players := [pC4a, pC4b],
    actionInProgress := some { action := .tax, playerId := 0 } }

/-- A room where player 0 holds only a `mustChooseExamine` obligation. -/
def room_c5 : Room :=
  { state := .playing,
    players := [{ id := 0, socketId := 100, mustChooseExamine := true },
                { id := 1, socketId := 101 }] }

/-- A room where player 0 holds a `mustRevealInfluence` obligation. -/
def room_w5 : Room :=
  { state := .playing,
    players := [{ id := 0, socketId := 100, mustRevealInfluence := true },
                { id := 1, socketId := 101 }] }

/-- A room with a pending Foreign Aid action by player 0 and two eligible
responders (players 1 and 2). -/
def room_c7 : Room :=
  { state := .playing,
    players := [{ id := 0, socketId := 100 }, { id := 1, socketId := 101 },
                { id := 2, socketId := 102 }],
    actionInProgress := some { action := .foreignAid, playerId := 0,
                               canBlock := true, blocker := [.duke],
                               totalResponders := 2 },
    pendingResponses := [1, 2] }

/-- The state of `room_c7` after player 1 passes once. -/
def room_c7b : Room :=
  { room_c7 with
      actionInProgress := some { action := .foreignAid, playerId := 0,
                                 canBlock := true, blocker := [.duke],
                                 totalResponders := 2, respondedCount := 1,
                                 responses := [(1, .pass)] }
      pendingResponses := [2] }

def pC8a : Player :=
  { id := 0, socketId := 100, coins := 2,
    influences := [⟨.duke, false⟩, ⟨.assassin, false⟩] }

def pC8b : Player :=
  { id := 1, socketId := 101, coins := 2, disconnected := true,
    influences := [⟨.captain, false⟩, ⟨.contessa, false⟩] }

/-- A two-player room in which the sole other living player (the sole
eligible blocker for a Foreign Aid) is disconnected. -/
def room_c8 : Room :=
  { state := .playing, deck := [.duke], players := [pC8a, pC8b] }

/-- The state of `room_c8` after the Foreign Aid by player 0 resolves
immediately: 2 coins granted, no pending action, turn advanced. -/
def roomAfter8 : Room :=
  { state := .playing, deck := [.duke],
    players :=
      [{ id := 0, socketId := 100, coins := 4,
         influences := [⟨.duke, false⟩, ⟨.assassin, false⟩] },
       { id := 1, socketId := 101, coins := 2, disconnected := true,
         influences := [⟨.captain, false⟩, ⟨.contessa, false⟩] }],
    currentPlayerIndex := 1 }

def pW9 : Player :=
  { id := 0, socketId := 100, coins := 10,
    influences := [⟨.duke, false⟩, ⟨.assassin, false⟩] }

def pW9b : Player :=
  { id := 1, socketId := 101, coins := 2,
    influences := [⟨.captain, false⟩, ⟨.contessa, false⟩] }

/-- A room whose current player holds 10 coins. -/
def room_w9 : Room := { state := .playing, players := [pW9, pW9b] }

/-- The state of `room_w9` after player 0's coup on player 1 resolves:
7 coins paid at resolution, a reveal obligation issued to the target. -/
def roomAfter9 : Room :=
  { state := .playing,
    players :=
      [{ id := 0, socketId := 100, coins := 3,
         influences := [⟨.duke, false⟩, ⟨.assassin, false⟩] },
       { id := 1, socketId := 101, coins := 2,
         influences := [⟨.captain, false⟩, ⟨.contessa, false⟩],
         mustRevealInfluence := true, influencesToLose := 1,
         influenceLossCausedBy := some 0 }] }

/-- A room with no action in progress (and a seated player), on which a
block-challenge intent arrives. -/
def room_c10 : Room := { state := .playing, players := [{ id := 0, socketId := 100 }] }

def pW1 : Player :=
  { id := 0, socketId := 100, influences := [⟨.duke, false⟩, ⟨.contessa, true⟩] }

/-- A one-player room used to instantiate the view-projection theorem. -/
def room_w1 : Room := { state := .playing, players := [pW1] }

/-- A mid-game room used to instantiate the cost-timing theorem: a pending
Tax claim by player 0 (who does not hold the Duke) challenged by player 1. -/
def room_w6 : Room :=
  { state := .playing, deck := [.duke],
    players :=
      [{ id := 0, socketId := 100, coins := 5,
         influences := [⟨.captain, false⟩, ⟨.assassin, false⟩] },
       { id := 1, socketId := 101, coins := 2,
         influences := [⟨.contessa, false⟩, ⟨.duke, false⟩] }],
    actionInProgress := some { action := .tax, playerId := 0, canChallenge := true } }

/-- A mid-game room with a pending assassination by player 0 on player 1,
ready for final resolution. -/
def room_w6r : Room :=
  { state := .playing, deck := [.duke],
    players :=
      [{ id := 0, socketId := 100, coins := 5,
         influences := [⟨.assassin, false⟩, ⟨.captain, false⟩] },
       { id := 1, socketId := 101, coins := 2,
         influences := [⟨.contessa, false⟩, ⟨.duke, false⟩] }],
    actionInProgress := some { action := .assassinate, playerId := 0, targetId := some 1,
                               canChallenge := true, canBlock := true,
                               blocker := [.contessa] } }

/-- A mid-game room in the block phase: player 1 blocked player 0's
Foreign Aid claiming Duke; player 0 is the only pending responder. -/
def room_w6b : Room :=
  { state := .playing, deck := [.duke],
    players :=
      [{ id := 0, socketId := 100, coins := 5,
         influences := [⟨.captain, false⟩, ⟨.assassin, false⟩] },
       { id := 1, socketId := 101, coins := 2,
         influences := [⟨.contessa, false⟩, ⟨.duke, false⟩] }],
    actionInProgress := some { action := .foreignAid, playerId := 0,
                               canBlock := true, blocker := [.duke],
                               phase := .block, blockerId := some 1,
                               blockCard := some .duke, totalResponders := 1 },
    pendingResponses := [0] }

theorem shuffleDeck_id_length (b : Bool) : (shuffleDeck id b).length = 15 := by
  cases b <;> rfl

theorem updateFirstById_map_coins (ps : List Player) (pid : Nat) (f : Player → Player)
    (hf : ∀ p, (f p).coins = p.coins) :
    (updateFirstById ps pid f).map (fun p => p.coins) = ps.map (fun p => p.coins) := by
  induction ps with
  | nil => rfl
  | cons p rest ih =>
    simp only [updateFirstById]
    split <;> simp [hf, ih]

theorem updateFirstById_length (ps : List Player) (pid : Nat) (f : Player → Player) :
    (updateFirstById ps pid f).length = ps.length := by
  induction ps with
  | nil => rfl
  | cons p rest ih =>
    simp only [updateFirstById]
    split <;> simp [ih]

theorem updateFirstById_any (ps : List Player) (pid : Nat) (f : Player → Player)
    (g : Player → Bool) (hf : ∀ p, g (f p) = g p) :
    (updateFirstById ps pid f).any g = ps.any g := by
  induction ps with
  | nil => rfl
  | cons p rest ih =>
    simp only [updateFirstById]
    split <;> simp [hf, ih]

theorem find?_updateFirstById_self (ps : List Player) (pid : Nat) (f : Player → Player)
    (hf : ∀ p, (f p).id = p.id) :
    (updateFirstById ps pid f).find? (fun p => p.id == pid) =
      (ps.find? (fun p => p.id == pid)).map f := by
  induction ps with
  | nil => rfl
  | cons p rest ih =>
    simp only [updateFirstById]
    by_cases hp : p.id = pid
    · rw [if_pos (by simp [hp]), List.find?_cons_of_pos _ (by simp [hf, hp]),
        List.find?_cons_of_pos _ (by simp [hp])]
      rfl
    · rw [if_neg (by simp [hp]), List.find?_cons_of_neg _ (by simp [hp]),
        List.find?_cons_of_neg _ (by simp [hp]), ih]

theorem find?_updateFirstById_other (ps : List Player) (pid q : Nat) (f : Player → Player)
    (hf : ∀ p, (f p).id = p.id) (h : pid ≠ q) :
    (updateFirstById ps pid f).find? (fun p => p.id == q) =
      ps.find? (fun p => p.id == q) := by
  induction ps with
  | nil => rfl
  | cons p rest ih =>
    simp only [updateFirstById]
    by_cases hp : p.id = pid
    · have hq : p.id ≠ q := by omega
      rw [if_pos (by simp [hp]), List.find?_cons_of_neg _ (by simp [hf, hp, h]),
        List.find?_cons_of_neg _ (by simp [hq])]
    · by_cases hq : p.id = q
      · rw [if_neg (by simp [hp]), List.find?_cons_of_pos _ (by simp [hq]),
          List.find?_cons_of_pos _ (by simp [hq])]
      · rw [if_neg (by simp [hp]), List.find?_cons_of_neg _ (by simp [hq]),
          List.find?_cons_of_neg _ (by simp [hq]), ih]

theorem getPlayerById_updatePlayer_self (room : Room) (pid : Nat) (f : Player → Player)
    (hf : ∀ p, (f p).id = p.id) :
    getPlayerById (updatePlayer room pid f) pid = (getPlayerById room pid).map f := by
  simp [getPlayerById, updatePlayer, find?_updateFirstById_self room.players pid f hf]

theorem getPlayerById_updatePlayer_other (room : Room) (pid q : Nat) (f : Player → Player)
    (hf : ∀ p, (f p).id = p.id) (h : pid ≠ q) :
    getPlayerById (updatePlayer room pid f) q = getPlayerById room q := by
  simp [getPlayerById, updatePlayer, find?_updateFirstById_other room.players pid q f hf h]

theorem coinsMap_updatePlayer (room : Room) (pid : Nat) (f : Player → Player)
    (hf : ∀ p, (f p).coins = p.coins) :
    coinsMap (updatePlayer room pid f) = coinsMap room := by
  simp [coinsMap, updatePlayer, updateFirstById_map_coins room.players pid f hf]

theorem coinsMap_loseInfluence (room : Room) (pid count : Nat) (cb : Option Nat) :
    coinsMap (loseInfluence room pid count cb) = coinsMap room := by
  unfold loseInfluence
  split
  · rfl
  · split
    · exact coinsMap_updatePlayer _ _ _ (fun p => rfl)
    · rfl

theorem coinsMap_clearActionAndTimeout (room : Room) :
    coinsMap (clearActionAndTimeout room) = coinsMap room := rfl

theorem coinsMap_checkWinCondition (room : Room) :
    coinsMap (checkWinCondition room) = coinsMap room := by
  unfold checkWinCondition
  split <;> rfl

theorem coinsMap_nextTurn (room room' : Room) (h : nextTurn room = some room') :
    coinsMap room' = coinsMap room := by
  unfold nextTurn at h
  split at h
  · cases h; rfl
  · split at h
    · cases h; rfl
    · split at h
      · cases h; rfl
      · split at h
        · cases h
        · cases h; rfl

theorem coinsMap_returnAndRedraw (shuffle : List Card → List Card) (room : Room)
    (pid : Nat) (claimed : Option Card) :
    coinsMap (returnAndRedraw shuffle room pid claimed) = coinsMap room := by
  unfold returnAndRedraw
  split
  · split
    · exact coinsMap_updatePlayer _ _ _ (fun p => rfl)
    · rfl
  · rfl

theorem coinsOf_updatePlayer (room : Room) (pid q : Nat) (f : Player → Player)
    (hfid : ∀ p, (f p).id = p.id) (hfc : ∀ p, (f p).coins = p.coins) :
    coinsOf (updatePlayer room pid f) q = coinsOf room q := by
  by_cases h : pid = q
  · subst h
    rw [coinsOf, coinsOf, getPlayerById_updatePlayer_self room pid f hfid]
    cases getPlayerById room pid <;> simp [hfc]
  · rw [coinsOf, coinsOf, getPlayerById_updatePlayer_other room pid q f hfid h]

theorem coinsOf_loseInfluence (room : Room) (pid count : Nat) (cb : Option Nat) (q : Nat) :
    coinsOf (loseInfluence room pid count cb) q = coinsOf room q := by
  unfold loseInfluence
  split
  · rfl
  · split
    · exact coinsOf_updatePlayer _ _ _ _ (fun p => rfl) (fun p => rfl)
    · rfl

theorem players_clearActionAndTimeout (room : Room) :
    (clearActionAndTimeout room).players = room.players := rfl

theorem players_checkWinCondition (room : Room) :
    (checkWinCondition room).players = room.players := by
  unfold checkWinCondition
  split <;> rfl

theorem players_nextTurn (room room' : Room) (h : nextTurn room = some room') :
    room'.players = room.players := by
  unfold nextTurn at h
  split at h
  · cases h; rfl
  · split at h
    · cases h; rfl
    · split at h
      · cases h; rfl
      · split at h
        · cases h
        · cases h; rfl

theorem coinsOf_congr_players (room room' : Room) (q : Nat)
    (h : room'.players = room.players) : coinsOf room' q = coinsOf room q := by
  simp [coinsOf, getPlayerById, h]

theorem pendingResponses_nextTurn (room room' : Room) (h : nextTurn room = some room') :
    room'.pendingResponses = room.pendingResponses := by
  unfold nextTurn at h
  split at h
  · cases h; rfl
  · split at h
    · cases h; rfl
    · split at h
      · cases h; rfl
      · split at h
        · cases h
        · cases h; rfl

theorem pendingResponses_loseInfluence (room : Room) (pid count : Nat) (cb : Option Nat) :
    (loseInfluence room pid count cb).pendingResponses = room.pendingResponses := by
  unfold loseInfluence
  split
  · rfl
  · split <;> rfl

theorem pendingResponses_returnAndRedraw (shuffle : List Card → List Card) (room : Room)
    (pid : Nat) (claimed : Option Card) :
    (returnAndRedraw shuffle room pid claimed).pendingResponses = room.pendingResponses := by
  unfold returnAndRedraw
  split
  · split <;> rfl
  · rfl

theorem pendingResponses_resolveAction (room room' : Room)
    (h : resolveAction room = some room') :
    room'.pendingResponses = room.pendingResponses := by
  unfold resolveAction at h
  split at h
  · cases h; rfl
  · split at h
    · cases h
    · split at h
      all_goals try dsimp only at h
      all_goals repeat split at h
      all_goals try dsimp only at h
      all_goals repeat split at h
      all_goals
        first
        | exact Option.noConfusion h
        | (have hp := pendingResponses_nextTurn _ _ h
           rw [hp]
           simp only [clearActionAndTimeout, updatePlayer, pendingResponses_loseInfluence]
           try split
           all_goals rfl)
        | (cases h
           simp [updatePlayer])

theorem coinsOf_updatePlayer_coins (room : Room) (pid : Nat) (g : Int → Int) :
    coinsOf (updatePlayer room pid (fun p => { p with coins := g p.coins })) pid =
      (coinsOf room pid).map g := by
  rw [coinsOf, coinsOf,
    getPlayerById_updatePlayer_self room pid (fun p => { p with coins := g p.coins })
      (fun p => rfl)]
  cases getPlayerById room pid <;> simp

theorem pendingResponses_handleChallenge (shuffle : List Card → List Card) (room : Room)
    (chId : Nat) (room' : Room) (h : handleChallenge shuffle room chId = some room') :
    room'.pendingResponses = room.pendingResponses := by
  unfold handleChallenge at h
  split at h
  · exact Option.noConfusion h
  · split at h
    · dsimp only at h
      split at h
      · have hp := pendingResponses_resolveAction _ _ h
        rw [hp]
        simp only [pendingResponses_returnAndRedraw, pendingResponses_loseInfluence]
      · have hp := pendingResponses_nextTurn _ _ h
        rw [hp]
        simp only [clearActionAndTimeout, pendingResponses_loseInfluence]
    · exact Option.noConfusion h

theorem mem_foldl_setInsert (l acc : List Nat) (y : Nat) :
    (y ∈ l.foldl (fun acc x => if x ∈ acc then acc else acc ++ [x]) acc) ↔
      y ∈ acc ∨ y ∈ l := by
  induction l generalizing acc with
  | nil => simp
  | cons x xs ih =>
    simp only [List.foldl_cons, ih]
    by_cases hx : x ∈ acc
    · simp only [if_pos hx, List.mem_cons]
      constructor
      · rintro (h | h)
        · exact Or.inl h
        · exact Or.inr (Or.inr h)
      · rintro (h | h | h)
        · exact Or.inl h
        · exact Or.inl (h ▸ hx)
        · exact Or.inr h
    · simp only [if_neg hx, List.mem_append, List.mem_singleton, List.mem_cons]
      tauto

theorem mem_mkSet (l : List Nat) (y : Nat) : y ∈ mkSet l ↔ y ∈ l := by
  simp [mkSet, mem_foldl_setInsert]

theorem not_mem_setDelete_self (l : List Nat) (x : Nat) : x ∉ setDelete l x := by
  simp [setDelete, List.mem_filter]

theorem handleBlock_blocker_not_pending (room : Room) (blockerId : Nat) (blockCard : Card)
    (room' : Room) (h : handleBlock room blockerId blockCard = some room') :
    blockerId ∉ room'.pendingResponses := by
  unfold handleBlock at h
  split at h
  · exact Option.noConfusion h
  · split at h
    · exact Option.noConfusion h
    · dsimp only at h
      have hmem : blockerId ∉ mkSet (((room.players.filter
          (fun p => p.alive && p.id != blockerId && !p.disconnected)).map
            (fun p => p.id))) := by
        rw [mem_mkSet]
        intro hmem
        obtain ⟨q, hq, hqid⟩ := List.mem_map.mp hmem
        have := List.of_mem_filter hq
        simp only [Bool.and_eq_true, bne_iff_ne] at this
        exact this.1.2 (hqid ▸ rfl)
      split at h
      · have hp := pendingResponses_nextTurn _ _ h
        rw [hp]
        simpa [clearActionAndTimeout] using hmem
      · split at h
        · cases h
          simpa using hmem
        · cases h
          simpa using hmem

/-! ## Claim analyses -/

/-- C2: the claim states that after every engine operation — in particular
`completeExchange` for every accepted `keepIndices` argument — the deck
size plus all influence cards (counting pending exchange offers) stays 15.
This theorem evaluates the code at the failing input: in `room_c2` the
total is 15 and the state is `playing`, yet `completeExchange` accepts the
duplicate index list `[0, 0]` (it passes the length and range checks) and
afterwards the total is 16 — a card has been duplicated, because the kept
cards are read per index while the returned cards are filtered by index
membership. -/
theorem C2_completeExchange_duplicate_indices_break_conservation :
    cardTotal room_c2 = 15 ∧
    room_c2.state = RoomState.playing ∧
    (completeExchange id room_c2 0 [0, 0]).map (fun pr => (pr.1, cardTotal pr.2)) =
      some (ok, 16) := by
  decide

/-- C3: the claim states that a revealed card stays permanently public and
its role is never returned to the deck.  This theorem evaluates the code at
the failing input: in `room_c3` player 0 has a revealed Duke; the source
pools *all* influences (revealed included) into the exchange choice, so
keeping the two drawn cards (`keepIndices = [2, 3]`) is accepted, after
which the player's hand contains no revealed card at all and the revealed
Duke's role sits in the deck, drawable again. -/
theorem C3_completeExchange_discards_revealed_card :
    (getPlayerById room_c3 0).map (fun p => p.influences) =
      some [⟨Card.duke, true⟩, ⟨Card.assassin, false⟩] ∧
    (completeExchange id room_c3 0 [2, 3]).map (fun pr =>
        (pr.1.success, (getPlayerById pr.2 0).map (fun p => p.influences), pr.2.deck)) =
      some (true, some [⟨Card.captain, false⟩, ⟨Card.contessa, false⟩],
        [Card.ambassador, Card.duke, Card.assassin]) := by
  decide

/-- C10: the claim states that challenge-block on a room whose
`actionInProgress` is null returns a typed failure result.  In the source,
`challengeBlock` reads `action.blockerId` before any null check, so the
call throws a `TypeError` instead (modelled as `none`): evaluated here on
a room with a seated player and no pending action. -/
theorem C10_challengeBlock_faults_on_null_action :
    room_c10.actionInProgress = none ∧
    (getPlayerBySocketId room_c10 100).isSome = true ∧
    challengeBlock id room_c10 100 = none := by
  decide

/-- C5 counterexample: the claim says `nextTurn` is a no-op whenever any
player has an obligation of any of the four kinds, including
`mustChooseExamine`.  In `room_c5` player 0 has only `mustChooseExamine`
set, and `nextTurn` advances the turn index from 0 to 1 anyway: the
source checks only the exchange, reveal and show-card obligations. -/
theorem C5_counterexample_examine_does_not_block_nextTurn :
    room_c5.players.any (fun p => p.mustChooseExamine) = true ∧
    room_c5.players.any (fun p =>
      p.mustRevealInfluence || p.mustChooseExchange || p.mustShowCardToExaminer) = false ∧
    room_c5.currentPlayerIndex = 0 ∧
    nextTurn room_c5 = some { room_c5 with currentPlayerIndex := 1 } := by
  decide

/-- C5 (amended): `nextTurn` is a no-op — the room is returned unchanged —
whenever any player has an outstanding `mustRevealInfluence`,
`mustChooseExchange` or `mustShowCardToExaminer` obligation; the fourth
obligation kind, `mustChooseExamine`, does not block turn advancement. -/
theorem C5_nextTurn_noop_on_reveal_exchange_show_obligations
    (room : Room)
    (h : room.players.any (fun p => p.mustChooseExchange) = true
       ∨ room.players.any (fun p => p.mustRevealInfluence) = true
       ∨ room.players.any (fun p => p.mustShowCardToExaminer) = true) :
    nextTurn room = some room := by
  unfold nextTurn
  rcases h with h | h | h <;> simp [h]

/-- C5 witness: the amended theorem applied to a room with a pending
reveal obligation. -/
theorem C5_witness : nextTurn room_w5 = some room_w5 :=
  C5_nextTurn_noop_on_reveal_exchange_show_obligations room_w5 (Or.inr (Or.inl (by decide)))

/-- C4 counterexample: the claim says that for every reachable state with
a non-null `actionInProgress`, `performAction` returns
`{success: false, error: 'Action already in progress'}`.  In `room_c4` an
action is pending, but a declaration from the non-current player (socket
101) is rejected as `'Not your turn'` instead: the turn check precedes the
mutual-exclusion check. -/
theorem C4_counterexample_wrong_turn_error_shadows_pending_action :
    room_c4.actionInProgress.isSome = true ∧
    performAction room_c4 101 ActionKind.income none =
      some (fail "Not your turn", room_c4) := by
  decide

/-- C4 (amended): whenever `actionInProgress` is non-null, every
`performAction` call that returns does so with `success = false` and an
unchanged room; the error is `'Action already in progress'` exactly when
the caller is a seated player whose socket owns the current turn (earlier
validation errors — `'Player not found'`, `'Not your turn'` — are returned
otherwise). -/
theorem C4_pending_action_mutual_exclusion
    (room : Room) (sid : Nat) (act : ActionKind) (tgt : Option Nat)
    (hpend : room.actionInProgress.isSome = true) :
    (∀ res room', performAction room sid act tgt = some (res, room') →
        res.success = false ∧ room' = room)
    ∧ (∀ p cur, getPlayerBySocketId room sid = some p →
        room.players[room.currentPlayerIndex]? = some cur →
        cur.socketId = sid →
        performAction room sid act tgt = some (fail "Action already in progress", room)) := by
  constructor
  · intro res room' h
    unfold performAction at h
    rcases hfind : getPlayerBySocketId room sid with _ | p
    · rw [hfind] at h
      cases h
      exact ⟨rfl, rfl⟩
    · rw [hfind] at h
      rcases hcur : room.players[room.currentPlayerIndex]? with _ | cur
      · rw [hcur] at h
        exact Option.noConfusion h
      · rw [hcur] at h
        dsimp only at h
        by_cases hsock : (cur.socketId != sid) = true
        · rw [if_pos hsock] at h
          cases h
          exact ⟨rfl, rfl⟩
        · rw [if_neg hsock, if_pos hpend] at h
          cases h
          exact ⟨rfl, rfl⟩
  · intro p cur hfind hcur hsock
    unfold performAction
    rw [hfind, hcur]
    dsimp only
    rw [if_neg (by simp [hsock]), if_pos hpend]

/-- C4 witness: the amended theorem applied to `room_c4` with the current
player (socket 100) declaring while an action is pending. -/
theorem C4_witness : performAction room_c4 100 ActionKind.income none =
    some (fail "Action already in progress", room_c4) :=
  (C4_pending_action_mutual_exclusion room_c4 100 ActionKind.income none (by decide)).2
    pC4a pC4a rfl rfl rfl

/-- C1: in the projected game state, a non-spectator observer sees another
player's unrevealed influence as the bare face-down record `{revealed:
false}` carrying no role, and sees revealed influences face-up with their
role; the owning player and any spectator see every card's role. -/
theorem C1_view_projection_hides_unrevealed_cards
    (room : Room) (sid : Nat) (i j : Nat) (p : Player) (inf : Influence)
    (hp : room.players[i]? = some p)
    (hinf : p.influences[j]? = some inf) :
    (p.socketId ≠ sid →
      ((getPublicGameState room sid false).players[i]?).map (fun pv => pv.influences[j]?) =
        some (some (if inf.revealed then ⟨some inf.card, inf.revealed⟩ else ⟨none, false⟩)))
    ∧ (p.socketId = sid →
      ((getPublicGameState room sid false).players[i]?).map (fun pv => pv.influences[j]?) =
        some (some ⟨some inf.card, inf.revealed⟩))
    ∧ ((getPublicGameState room sid true).players[i]?).map (fun pv => pv.influences[j]?) =
        some (some ⟨some inf.card, inf.revealed⟩) := by
  refine ⟨?_, ?_, ?_⟩
  · intro hne
    have hsock : (p.socketId == sid) = false := by simp [hne]
    simp [getPublicGameState, playerView, List.getElem?_map, hp, hinf, hsock]
    split <;> simp_all
  · intro heq
    simp [getPublicGameState, playerView, List.getElem?_map, hp, hinf, heq]
  · simp [getPublicGameState, playerView, List.getElem?_map, hp, hinf]

/-- C1 witness: in `room_w1`, an observer socket that owns no seat sees
player 0's unrevealed Duke as `{revealed: false}` with no role, and their
revealed Contessa face-up. -/
theorem C1_witness :
    ((getPublicGameState room_w1 200 false).players[0]?).map (fun pv => pv.influences[0]?) =
      some (some ⟨none, false⟩) ∧
    ((getPublicGameState room_w1 200 false).players[0]?).map (fun pv => pv.influences[1]?) =
      some (some ⟨some Card.contessa, true⟩) := by
  have h0 := C1_view_projection_hides_unrevealed_cards room_w1 200 0 0 pW1
    ⟨Card.duke, false⟩ rfl rfl
  have h1 := C1_view_projection_hides_unrevealed_cards room_w1 200 0 1 pW1
    ⟨Card.contessa, true⟩ rfl rfl
  exact ⟨by simpa using h0.1 (by decide), by simpa using h1.1 (by decide)⟩

/-- C7 counterexample: the claim says a second `pass` from a responder who
already passed is rejected with an `'already responded'` error.  In
`room_c7`, player 1 passes once (reaching `room_c7b`, whose action record
does hold player 1's response); submitting `pass` again is rejected as
`'Not eligible to respond'` instead — the pending-responses deletion done
by the first pass makes the eligibility guard fire before the
already-responded guard — though the room is indeed left unchanged. -/
theorem C7_counterexample_second_pass_rejected_as_not_eligible :
    respondToAction id room_c7 101 Response.pass = some (ok, room_c7b) ∧
    (room_c7b.actionInProgress.map (fun a => (a.responses.lookup 1).isSome)) = some true ∧
    respondToAction id room_c7b 101 Response.pass =
      some (fail "Not eligible to respond", room_c7b) := by
  decide

/-- C7 (amended): a duplicate `pass` is rejected and not double-counted,
but with the error `'Not eligible to respond'`: (1) any response from a
player no longer in the pending-responses set is rejected with that error
and the room is returned unchanged, and (2) every successful response
removes the responder from the pending-responses set, so the second
submission of a pass falls under (1); the `'Already responded'` guard is
unreachable for a same-phase resubmission. -/
theorem C7_duplicate_pass_rejected_without_recount :
    (∀ shuffle (room : Room) sid resp p,
      getPlayerBySocketId room sid = some p →
      room.actionInProgress.isSome = true →
      p.id ∉ room.pendingResponses →
      respondToAction shuffle room sid resp =
        some (fail "Not eligible to respond", room))
    ∧ (∀ shuffle (room : Room) sid resp p res room',
      getPlayerBySocketId room sid = some p →
      respondToAction shuffle room sid resp = some (res, room') →
      res.success = true →
      p.id ∉ room'.pendingResponses) := by
  constructor
  · intro shuffle room sid resp p hfind hpend hmem
    unfold respondToAction
    rcases haip : room.actionInProgress with _ | a
    · rw [haip] at hpend
      simp at hpend
    · simp only [hfind, haip]
      try dsimp only
      rw [if_pos hmem]
  · intro shuffle room sid resp p res room' hfind h hsucc
    unfold respondToAction at h
    split at h
    · cases h
      simp [fail] at hsucc
    · cases h
      simp [fail] at hsucc
    · rename_i player a heqf heqa
      rw [hfind] at heqf
      cases heqf
      by_cases hc1 : p.id ∉ room.pendingResponses
      · rw [if_pos hc1] at h
        cases h
        simp [fail] at hsucc
      · rw [if_neg hc1] at h
        by_cases hc2 : ((a.responses.lookup p.id).isSome = true)
        · rw [if_pos hc2] at h
          cases h
          simp [fail] at hsucc
        · rw [if_neg hc2] at h
          by_cases hc3 : ((a.phase == Phase.waiting && a.playerId == p.id) = true)
          · rw [if_pos hc3] at h
            cases h
            simp [fail] at hsucc
          · rw [if_neg hc3] at h
            by_cases hc4 : ((a.phase == Phase.block && a.blockerId == some p.id) = true)
            · rw [if_pos hc4] at h
              cases h
              simp [fail] at hsucc
            · rw [if_neg hc4] at h
              by_cases hc5 : ((isBlockResponse resp
                  && a.blockableByTarget && a.targetCanBlock != some p.id) = true)
              · rw [if_pos hc5] at h
                cases h
                simp [fail] at hsucc
              · rw [if_neg hc5] at h
                dsimp only at h
                have hdel := not_mem_setDelete_self room.pendingResponses p.id
                rcases resp with _ | _ | bc
                · -- pass
                  dsimp only at h
                  by_cases hb : ((a.phase == Phase.block) = true)
                  · rw [if_pos hb] at h
                    by_cases hlen :
                        (((setDelete room.pendingResponses p.id).length == 0) = true)
                    · rw [if_pos hlen] at h
                      split at h
                      · split at h
                        · cases h
                          simpa using hdel
                        · cases h
                          simpa using hdel
                      · rw [Option.map_eq_some'] at h
                        obtain ⟨r', hr', heq⟩ := h
                        cases heq
                        have hpr := pendingResponses_nextTurn _ _ hr'
                        rw [hpr]
                        simpa [clearActionAndTimeout] using hdel
                    · rw [if_neg hlen] at h
                      cases h
                      simpa using hdel
                  · rw [if_neg hb] at h
                    by_cases hlen :
                        (((setDelete room.pendingResponses p.id).length == 0) = true)
                    · rw [if_pos hlen] at h
                      split at h
                      · split at h
                        · cases h
                          simpa using hdel
                        · cases h
                          simpa using hdel
                      · rw [Option.map_eq_some'] at h
                        obtain ⟨r', hr', heq⟩ := h
                        cases heq
                        have hpr := pendingResponses_resolveAction _ _ hr'
                        rw [hpr]
                        simpa using hdel
                    · rw [if_neg hlen] at h
                      cases h
                      simpa using hdel
                · -- challenge
                  dsimp only at h
                  rw [Option.map_eq_some'] at h
                  obtain ⟨r', hr', heq⟩ := h
                  cases heq
                  have hpr := pendingResponses_handleChallenge _ _ _ _ hr'
                  rw [hpr]
                  simpa using hdel
                · -- block
                  dsimp only at h
                  rw [Option.map_eq_some'] at h
                  obtain ⟨r', hr', heq⟩ := h
                  cases heq
                  exact handleBlock_blocker_not_pending _ _ _ _ hr'

/-- C7 witness: both halves of the amended theorem instantiated on the
double-pass scenario of `room_c7`. -/
theorem C7_witness :
    respondToAction id room_c7b 101 Response.pass =
      some (fail "Not eligible to respond", room_c7b) ∧
    (1 : Nat) ∉ room_c7b.pendingResponses := by
  constructor
  · exact (C7_duplicate_pass_rejected_without_recount).1 id room_c7b 101 Response.pass
      { id := 1, socketId := 101 } rfl (by decide) (by decide)
  · exact (C7_duplicate_pass_rejected_without_recount).2 id room_c7 101 Response.pass
      { id := 1, socketId := 101 } ok room_c7b rfl (by decide) rfl

/-- C9: a player holding 10 or more coins has every non-coup declaration
rejected with no state change (with the `'Must coup with 10+ coins'` error
once the per-call validations pass), while a coup declaration is never
rejected by the mandatory-coup rule — no `performAction` result for a coup
ever carries that error. -/
theorem C9_mandatory_coup_at_ten_coins :
    (∀ (room : Room) sid act tgt p,
      getPlayerBySocketId room sid = some p →
      (10 : Int) ≤ p.coins →
      act ≠ ActionKind.coup →
      ∀ res room', performAction room sid act tgt = some (res, room') →
        res.success = false ∧ room' = room)
    ∧ (∀ (room : Room) sid tgt res room',
      performAction room sid ActionKind.coup tgt = some (res, room') →
        res.error ≠ some "Must coup with 10+ coins") := by
  constructor
  · intro room sid act tgt p hfind hcoins hact res room' h
    unfold performAction at h
    split at h
    · rename_i heq
      rw [hfind] at heq
      exact Option.noConfusion heq
    · rename_i player heq
      rw [hfind] at heq
      cases heq
      split at h
      · exact Option.noConfusion h
      · rename_i cur heq2
        by_cases hs1 : ((cur.socketId != sid) = true)
        · rw [if_pos hs1] at h
          cases h
          exact ⟨rfl, rfl⟩
        · rw [if_neg hs1] at h
          by_cases hs2 : (room.actionInProgress.isSome = true)
          · rw [if_pos hs2] at h
            cases h
            exact ⟨rfl, rfl⟩
          · rw [if_neg hs2] at h
            by_cases hs3 : ((room.players.any fun q => q.mustRevealInfluence) = true)
            · rw [if_pos hs3] at h
              cases h
              exact ⟨rfl, rfl⟩
            · rw [if_neg hs3] at h
              by_cases hs4 : ((room.players.any fun q => q.mustChooseExchange) = true)
              · rw [if_pos hs4] at h
                cases h
                exact ⟨rfl, rfl⟩
              · rw [if_neg hs4] at h
                by_cases hs5 : ((room.players.any fun q => q.mustShowCardToExaminer) = true)
                · rw [if_pos hs5] at h
                  cases h
                  exact ⟨rfl, rfl⟩
                · rw [if_neg hs5] at h
                  by_cases hs6 : ((room.players.any fun q => q.mustChooseExamine) = true)
                  · rw [if_pos hs6] at h
                    cases h
                    exact ⟨rfl, rfl⟩
                  · rw [if_neg hs6] at h
                    dsimp only at h
                    by_cases hs7 : (((ACTIONS act).cost.map
                        (fun c => decide (p.coins < c))).getD false = true)
                    · rw [if_pos hs7] at h
                      cases h
                      exact ⟨rfl, rfl⟩
                    · rw [if_neg hs7] at h
                      rw [if_pos (show (decide (p.coins ≥ 10) && (act != ActionKind.coup))
                          = true by simp [hcoins, hact])] at h
                      cases h
                      exact ⟨rfl, rfl⟩
  · intro room sid tgt res room' h
    unfold performAction at h
    split at h
    · cases h
      decide
    · rename_i player heq
      split at h
      · exact Option.noConfusion h
      · rename_i cur heq2
        by_cases hs1 : ((cur.socketId != sid) = true)
        · rw [if_pos hs1] at h
          cases h
          decide
        · rw [if_neg hs1] at h
          by_cases hs2 : (room.actionInProgress.isSome = true)
          · rw [if_pos hs2] at h
            cases h
            decide
          · rw [if_neg hs2] at h
            by_cases hs3 : ((room.players.any fun q => q.mustRevealInfluence) = true)
            · rw [if_pos hs3] at h
              cases h
              decide
            · rw [if_neg hs3] at h
              by_cases hs4 : ((room.players.any fun q => q.mustChooseExchange) = true)
              · rw [if_pos hs4] at h
                cases h
                decide
              · rw [if_neg hs4] at h
                by_cases hs5 : ((room.players.any fun q => q.mustShowCardToExaminer) = true)
                · rw [if_pos hs5] at h
                  cases h
                  decide
                · rw [if_neg hs5] at h
                  by_cases hs6 : ((room.players.any fun q => q.mustChooseExamine) = true)
                  · rw [if_pos hs6] at h
                    cases h
                    decide
                  · rw [if_neg hs6] at h
                    dsimp only at h
                    by_cases hs7 : (((ACTIONS ActionKind.coup).cost.map
                        (fun c => decide (player.coins < c))).getD false = true)
                    · rw [if_pos hs7] at h
                      cases h
                      decide
                    · rw [if_neg hs7] at h
                      rw [if_neg (show ¬((decide (player.coins ≥ 10)
                          && (ActionKind.coup != ActionKind.coup)) = true) by simp)] at h
                      by_cases hs8 : (((ActionKind.coup == ActionKind.steal
                          || ActionKind.coup == ActionKind.assassinate
                          || ActionKind.coup == ActionKind.coup
                          || ActionKind.coup == ActionKind.examine)
                          && (tgt.bind (fun tid => getPlayerById room tid)).isNone) = true)
                      · rw [if_pos hs8] at h
                        cases h
                        decide
                      · rw [if_neg hs8] at h
                        rw [if_neg (show ¬(((ACTIONS ActionKind.coup).challengeable
                            || (ACTIONS ActionKind.coup).blockable) = true) by decide)] at h
                        rw [Option.map_eq_some'] at h
                        obtain ⟨r', hr', heq3⟩ := h
                        cases heq3
                        decide

/-- C9 witness: both halves instantiated on `room_w9`, whose current
player holds exactly 10 coins: an Income declaration is rejected
unchanged, and the coup that resolves to `roomAfter9` carries no
mandatory-coup error. -/
theorem C9_witness :
    ((fail "Must coup with 10+ coins").success = false ∧ room_w9 = room_w9) ∧
    ok.error ≠ some "Must coup with 10+ coins" := by
  constructor
  · exact (C9_mandatory_coup_at_ten_coins).1 room_w9 100 ActionKind.income none pW9
      rfl (by decide) (by decide) (fail "Must coup with 10+ coins") room_w9 (by decide)
  · exact (C9_mandatory_coup_at_ten_coins).2 room_w9 100 (some 1) ok roomAfter9 (by decide)

/-- C6: coin costs are deducted only at the final effect step inside
`resolveAction`, and a cancelled action leaves every coin balance — in
particular the initiator's — unchanged: (1) a successful challenge of a
bluffing actor (`handleChallenge` when the actor lacks the claimed card),
(2) a block declaration, (3) any `pass` processed while the action is in
the block phase (including the one that lets the block stand), and (4) the
block-phase timeout all preserve the coin balances of every seat; (5) when
`resolveAction` runs an action with a cost (assassinate 3, coup 7), the
initiator's balance decreases by exactly that cost at that step. -/
theorem C6_costs_deducted_only_at_resolution :
    (∀ shuffle (room : Room) chId a actor,
      room.actionInProgress = some a →
      getPlayerById room a.playerId = some actor →
      hasUnrevealedCard actor (ACTIONS a.action).card = false →
      ∀ room', handleChallenge shuffle room chId = some room' →
        coinsMap room' = coinsMap room)
    ∧ (∀ (room : Room) bId bc room', handleBlock room bId bc = some room' →
        coinsMap room' = coinsMap room)
    ∧ (∀ shuffle (room : Room) sid a,
      room.actionInProgress = some a → a.phase = Phase.block →
      ∀ res room', respondToAction shuffle room sid Response.pass = some (res, room') →
        coinsMap room' = coinsMap room)
    ∧ (∀ (room room' : Room), blockTimeoutFire room = some room' →
        coinsMap room' = coinsMap room)
    ∧ (∀ (room : Room) a c,
      room.actionInProgress = some a →
      (ACTIONS a.action).cost = some c →
      ∀ room', resolveAction room = some room' →
        coinsOf room' a.playerId = (coinsOf room a.playerId).map (fun x => x - c)) := by
  refine ⟨?_, ?_, ?_, ?_, ?_⟩
  · intro shuffle room chId a actor haip hactor hbluff room' h
    unfold handleChallenge at h
    split at h
    · rename_i heq
      rw [haip] at heq
      exact Option.noConfusion heq
    · rename_i a' heq
      rw [haip] at heq
      cases heq
      split at h
      · rename_i chP actorP heqc heqa
        rw [hactor] at heqa
        cases heqa
        dsimp only at h
        rw [if_neg (by simp [hbluff])] at h
        have h1 := coinsMap_nextTurn _ _ h
        rw [h1, coinsMap_clearActionAndTimeout, coinsMap_loseInfluence]
        rfl
      · exact Option.noConfusion h
  · intro room bId bc room' h
    unfold handleBlock at h
    split at h
    · exact Option.noConfusion h
    · split at h
      · exact Option.noConfusion h
      · dsimp only at h
        split at h
        · have h1 := coinsMap_nextTurn _ _ h
          rw [h1, coinsMap_clearActionAndTimeout]
          rfl
        · split at h
          · cases h
            rfl
          · cases h
            rfl
  · intro shuffle room sid a haip hphase res room' h
    unfold respondToAction at h
    split at h
    · cases h
      rfl
    · cases h
      rfl
    · rename_i player a' heqf heqa
      rw [haip] at heqa
      cases heqa
      by_cases hc1 : player.id ∉ room.pendingResponses
      · rw [if_pos hc1] at h
        cases h
        rfl
      · rw [if_neg hc1] at h
        by_cases hc2 : ((a.responses.lookup player.id).isSome = true)
        · rw [if_pos hc2] at h
          cases h
          rfl
        · rw [if_neg hc2] at h
          rw [if_neg (show ¬((a.phase == Phase.waiting && a.playerId == player.id) = true) by
            simp [hphase])] at h
          by_cases hc4 : ((a.phase == Phase.block && a.blockerId == some player.id) = true)
          · rw [if_pos hc4] at h
            cases h
            rfl
          · rw [if_neg hc4] at h
            rw [if_neg (show ¬((isBlockResponse Response.pass && a.blockableByTarget
                && a.targetCanBlock != some player.id) = true) by
              simp [isBlockResponse])] at h
            dsimp only at h
            rw [if_pos (show (a.phase == Phase.block) = true by simp [hphase])] at h
            by_cases hlen : (((setDelete room.pendingResponses player.id).length == 0) = true)
            · rw [if_pos hlen] at h
              split at h
              · split at h
                · cases h
                  rfl
                · cases h
                  rfl
              · rw [Option.map_eq_some'] at h
                obtain ⟨r', hr', heq⟩ := h
                cases heq
                have h1 := coinsMap_nextTurn _ _ hr'
                rw [h1, coinsMap_clearActionAndTimeout]
                rfl
            · rw [if_neg hlen] at h
              cases h
              rfl
  · intro room room' h
    unfold blockTimeoutFire at h
    split at h
    · split at h
      · have h1 := coinsMap_nextTurn _ _ h
        rw [h1, coinsMap_clearActionAndTimeout]
      · cases h
        rfl
    · cases h
      rfl
  · intro room a c haip hcost room' h
    unfold resolveAction at h
    split at h
    · rename_i heq
      rw [haip] at heq
      exact Option.noConfusion heq
    · rename_i a' heq
      rw [haip] at heq
      cases heq
      split at h
      · exact Option.noConfusion h
      · rename_i actor heqa
        rcases ha : a.action
        case income => rw [ha] at hcost; simp [ACTIONS] at hcost
        case foreignAid => rw [ha] at hcost; simp [ACTIONS] at hcost
        case tax => rw [ha] at hcost; simp [ACTIONS] at hcost
        case steal => rw [ha] at hcost; simp [ACTIONS] at hcost
        case exchange => rw [ha] at hcost; simp [ACTIONS] at hcost
        case examine => rw [ha] at hcost; simp [ACTIONS] at hcost
        case assassinate =>
          rw [ha] at hcost
          simp only [ACTIONS, Option.some.injEq] at hcost
          subst hcost
          rw [ha] at h
          dsimp only [ACTIONS] at h
          split at h
          · rename_i t heqt
            have h1 := players_nextTurn _ _ h
            have h2 := coinsOf_congr_players _ _ a.playerId h1
            rw [h2, coinsOf_congr_players _ _ a.playerId (players_clearActionAndTimeout _),
              coinsOf_loseInfluence]
            exact coinsOf_updatePlayer_coins room a.playerId (fun x => x - 3)
          · have h1 := players_nextTurn _ _ h
            have h2 := coinsOf_congr_players _ _ a.playerId h1
            rw [h2, coinsOf_congr_players _ _ a.playerId (players_clearActionAndTimeout _)]
            exact coinsOf_updatePlayer_coins room a.playerId (fun x => x - 3)
        case coup =>
          rw [ha] at hcost
          simp only [ACTIONS, Option.some.injEq] at hcost
          subst hcost
          rw [ha] at h
          dsimp only [ACTIONS] at h
          split at h
          · rename_i t heqt
            have h1 := players_nextTurn _ _ h
            have h2 := coinsOf_congr_players _ _ a.playerId h1
            rw [h2, coinsOf_congr_players _ _ a.playerId (players_clearActionAndTimeout _),
              coinsOf_loseInfluence]
            exact coinsOf_updatePlayer_coins room a.playerId (fun x => x - 7)
          · have h1 := players_nextTurn _ _ h
            have h2 := coinsOf_congr_players _ _ a.playerId h1
            rw [h2, coinsOf_congr_players _ _ a.playerId (players_clearActionAndTimeout _)]
            exact coinsOf_updatePlayer_coins room a.playerId (fun x => x - 7)

/-- C6 witness: all five parts instantiated — the challenged Tax bluff in
`room_w6`, a block and a block-phase pass and the block timeout around
`room_w6`/`room_w6b`, and the assassination resolution in `room_w6r`. -/
theorem C6_witness :
    (∃ r', handleChallenge id room_w6 1 = some r' ∧ coinsMap r' = coinsMap room_w6)
    ∧ (∃ r', handleBlock room_w6 1 Card.duke = some r' ∧ coinsMap r' = coinsMap room_w6)
    ∧ (∃ res r', respondToAction id room_w6b 0 Response.pass = some (res, r') ∧
        coinsMap r' = coinsMap room_w6b)
    ∧ (∃ r', blockTimeoutFire room_w6b = some r' ∧ coinsMap r' = coinsMap room_w6b)
    ∧ (∃ r', resolveAction room_w6r = some r' ∧
        coinsOf r' 0 = (coinsOf room_w6r 0).map (fun x => x - 3)) := by
  refine ⟨⟨_, rfl, ?_⟩, ⟨_, rfl, ?_⟩, ⟨_, _, rfl, ?_⟩, ⟨_, rfl, ?_⟩, ⟨_, rfl, ?_⟩⟩
  · exact C6_costs_deducted_only_at_resolution.1 id room_w6 1 _ _ rfl rfl (by decide) _ rfl
  · exact C6_costs_deducted_only_at_resolution.2.1 room_w6 1 Card.duke _ rfl
  · exact C6_costs_deducted_only_at_resolution.2.2.1 id room_w6b 0 _ rfl rfl _ _ rfl
  · exact C6_costs_deducted_only_at_resolution.2.2.2.1 room_w6b _ rfl
  · exact C6_costs_deducted_only_at_resolution.2.2.2.2 room_w6r _ 3 rfl rfl _ rfl

theorem actionInProgress_nextTurn (room room' : Room) (h : nextTurn room = some room') :
    room'.actionInProgress = room.actionInProgress := by
  unfold nextTurn at h
  split at h
  · cases h; rfl
  · split at h
    · cases h; rfl
    · split at h
      · cases h; rfl
      · split at h
        · cases h
        · cases h; rfl

theorem responseTimeout_nextTurn (room room' : Room) (h : nextTurn room = some room') :
    room'.responseTimeout = room.responseTimeout := by
  unfold nextTurn at h
  split at h
  · cases h; rfl
  · split at h
    · cases h; rfl
    · split at h
      · cases h; rfl
      · split at h
        · cases h
        · cases h; rfl

/-- C8 counterexample: the claim says that with the sole eligible
responder to a pending Foreign Aid disconnected, the action stays pending
and paused until that player reconnects or forfeits.  In `room_c8` player
1 — the only other living player — is disconnected, yet the Foreign Aid
declaration succeeds and is resolved on the spot: no pending action
remains, no timer is armed, and the initiator already holds the 2 coins. -/
theorem C8_counterexample_immediate_resolution_while_disconnected :
    (getPlayerById room_c8 1).map (fun p => (p.alive, p.disconnected)) =
      some (true, true) ∧
    (performAction room_c8 100 ActionKind.foreignAid none).map (fun pr =>
      (pr.1, pr.2.actionInProgress, (getPlayerById pr.2 0).map (fun p => p.coins),
        pr.2.responseTimeout)) =
      some (ok, none, some 4, false) := by
  decide

/-- C8 (amended): when every other living player is disconnected at
declaration time (so the eligible responder set is empty — e.g. the sole
eligible Foreign Aid blocker is disconnected), `performAction` does not
pause: any returned result is a success whose room has no pending action
and no armed timer, and the initiator has already received the 2 Foreign
Aid coins — the action resolves immediately as if the disconnected player
had passed.  (The pause-until-reconnect behaviour exists only for a
targeted blockable action whose target is disconnected, and for block
challenges.) -/
theorem C8_empty_responder_set_resolves_foreignAid_immediately
    (room : Room) (sid : Nat) (p cur : Player)
    (hfind : getPlayerBySocketId room sid = some p)
    (hcur : room.players[room.currentPlayerIndex]? = some cur)
    (hturn : cur.socketId = sid)
    (hnoact : room.actionInProgress = none)
    (h1 : room.players.any (fun q => q.mustRevealInfluence) = false)
    (h2 : room.players.any (fun q => q.mustChooseExchange) = false)
    (h3 : room.players.any (fun q => q.mustShowCardToExaminer) = false)
    (h4 : room.players.any (fun q => q.mustChooseExamine) = false)
    (hcoins : p.coins < 10)
    (hdisc : room.players.filter (fun q => q.alive && q.id != p.id && !q.disconnected) = []) :
    ∀ res room', performAction room sid ActionKind.foreignAid none = some (res, room') →
      res = ok ∧ room'.actionInProgress = none ∧ room'.responseTimeout = false ∧
      coinsOf room' p.id = (coinsOf room p.id).map (fun x => x + 2) := by
  intro res room' h
  have hge : ¬ (10 : Int) ≤ p.coins := not_le.mpr hcoins
  unfold performAction at h
  rw [hfind, hcur] at h
  dsimp only at h
  rw [if_neg (by simp [hturn])] at h
  rw [if_neg (by simp [hnoact])] at h
  rw [if_neg (by simp [h1])] at h
  rw [if_neg (by simp [h2])] at h
  rw [if_neg (by simp [h3])] at h
  rw [if_neg (by simp [h4])] at h
  rw [if_neg (by simp [ACTIONS])] at h
  rw [if_neg (by simp [hge])] at h
  rw [if_neg (by simp)] at h
  try dsimp only at h
  rw [if_pos (show ((ACTIONS ActionKind.foreignAid).challengeable
      || (ACTIONS ActionKind.foreignAid).blockable) = true by decide)] at h
  rw [if_neg (show ¬(((ACTIONS ActionKind.foreignAid).blockable
      && (none : Option Nat).isSome) = true) by decide)] at h
  rw [hdisc] at h
  rw [if_pos (show ((([] : List Player).length == 0) = true) by decide)] at h
  rw [Option.map_eq_some'] at h
  obtain ⟨r', hr', heq⟩ := h
  cases heq
  refine ⟨rfl, ?_, ?_, ?_⟩
  · unfold resolveAction at hr'
    try dsimp only at hr'
    split at hr'
    · exact Option.noConfusion hr'
    · try dsimp only [ACTIONS] at hr'
      rw [actionInProgress_nextTurn _ _ hr']
      rfl
  · unfold resolveAction at hr'
    try dsimp only at hr'
    split at hr'
    · exact Option.noConfusion hr'
    · try dsimp only [ACTIONS] at hr'
      rw [responseTimeout_nextTurn _ _ hr']
      rfl
  · unfold resolveAction at hr'
    try dsimp only at hr'
    split at hr'
    · exact Option.noConfusion hr'
    · try dsimp only [ACTIONS] at hr'
      rw [coinsOf_congr_players _ _ p.id (players_nextTurn _ _ hr'),
        coinsOf_congr_players _ _ p.id (players_clearActionAndTimeout _)]
      exact coinsOf_updatePlayer_coins _ p.id (fun x => x + 2)

/-- C8 witness: the amended theorem applied to `room_c8`, whose only other
living player is disconnected; the declaration resolves to `roomAfter8`. -/
theorem C8_witness :
    ok = ok ∧ roomAfter8.actionInProgress = none ∧ roomAfter8.responseTimeout = false ∧
    coinsOf roomAfter8 0 = (coinsOf room_c8 0).map (fun x => x + 2) :=
  C8_empty_responder_set_resolves_foreignAid_immediately room_c8 100 pC8a pC8a
    rfl rfl rfl rfl (by decide) (by decide) (by decide) (by decide) (by decide) (by decide)
    ok roomAfter8 (by decide)
